import Mathlib

/-!
Verification of the least-squares-method (LSM) pipeline of `lsm_project/lsm/functions.py`.

Numbers are modelled as exact rationals (`ℚ`): every Python float is an exact
rational, and the spec states all formulas over real numbers.  The one
operation whose exact result leaves `ℚ` is `math.sqrt`, modelled as `Real.sqrt`
into `ℝ`.  Python raises `ZeroDivisionError` on float division by zero and
`ValueError` on `math.sqrt` of a negative number; both are modelled as explicit
error outcomes of the `Except Err` monad, mirroring Python exception
propagation.
-/

/-- Python exceptions raised by the module, with the raised message where the
source supplies one.  `zeroDivisionError` is what Python's `/` raises on a zero
divisor — the spec's name for this failure is `DegenerateFitError`. -/
inductive Err where
  | typeError (msg : String)
  | valueError (msg : String)
  | runtimeError (msg : String)
  | zeroDivisionError
deriving DecidableEq, Repr

/-- Modelled from the spec: the enumeration `MismatchStrategies` is defined in
`lsm_project/lsm/enumerations.py`, which is not under src/.  The spec calls it
a closed enumeration of FAIL and TRUNCATE; `functions.py` refers to the two
members as `MismatchStrategies.FALL` and `MismatchStrategies.CUT`.  Since the
Python argument can be any object, the extra value `unknown` stands for an
arbitrary value outside the enumeration, which the `case _` arm of
`_process_mismatch` rejects. -/
inductive MismatchStrategies where
  | FALL
  | CUT
  | unknown
deriving DecidableEq, Repr

/-- Modelled from the spec: the dataclass `LSMDescription` (the spec's
`FitDescription` with fields incline, shift, incline_error, shift_error) lives
in `lsm_project/lsm/models.py`, not under src/; field names are fixed by the
keyword arguments used in `functions.py`.  The numeric type is a parameter:
values computed by `get_lsm_description` contain square roots and live in `ℝ`,
while any caller-supplied description holds Python floats, i.e. rationals. -/
structure LSMDescription (α : Type) where
  incline : α
  shift : α
  incline_error : α
  shift_error : α
deriving DecidableEq, Repr

/-- Modelled from the spec: the dataclass `LSMStatistics` (the spec's
`SummaryStatistics`) lives in `lsm_project/lsm/models.py`, not under src/;
field names are fixed by the keyword arguments used in `functions.py`. -/
structure LSMStatistics where
  abscissa_mean : ℚ
  ordinate_mean : ℚ
  product_mean : ℚ
  abs_squared_mean : ℚ
deriving DecidableEq, Repr

/-- Modelled from the spec: the dataclass `LSMLines` (the spec's `FitLines`)
lives in `lsm_project/lsm/models.py`, not under src/; field names are fixed by
the keyword arguments used in `functions.py`.  The input sequences are
rational; the three generated lines involve the description's error terms and
live in `ℝ`. -/
structure LSMLines where
  abscissa : List ℚ
  ordinates : List ℚ
  line_predicted : List ℝ
  line_above : List ℝ
  line_under : List ℝ

/-- Python float division: raises `ZeroDivisionError` on a zero divisor,
otherwise returns the exact quotient. -/
def pydiv (a : ℚ) (b : ℚ) : Except Err ℚ :=
  if b = 0 then .error Err.zeroDivisionError else .ok (a / b)

/-- Python `math.sqrt`: raises `ValueError` on a negative argument, otherwise
returns the (exact, real) square root. -/
noncomputable def pysqrt (q : ℚ) : Except Err ℝ :=
  if q < 0 then .error (Err.valueError ("math domain error")) else .ok (Real.sqrt (q : ℝ))

/-- Source `_is_valid_measurments`: `all(isinstance(el, Real) for el in
measurments)`.  In this typed embedding every element has type `ℚ` and hence
models a Python `numbers.Real`, so the check holds for each element. -/
def _is_valid_measurments (measurments : List ℚ) : Bool :=
  measurments.all (fun _ => true)

/-- Source `_process_mismatch`: raises `ValueError` when either list has fewer
than 3 elements; when the lengths differ it branches on the strategy — FALL
raises `RuntimeError`, CUT truncates both lists to the shorter length, and any
other value raises `ValueError`; otherwise it returns the two lists
unchanged. -/
def _process_mismatch (abscissa : List ℚ) (ordinates : List ℚ)
    (mismatch_strategy : MismatchStrategies) : Except Err (List ℚ × List ℚ) :=
  if abscissa.length < 3 ∨ ordinates.length < 3 then
    .error (Err.valueError ("Arguments lenghts must be more than 2"))
  else if abscissa.length ≠ ordinates.length then
    match mismatch_strategy with
    | .FALL => .error (Err.runtimeError ("Lenghts of the arguments are not equal"))
    | .CUT =>
      let min_lenght := min abscissa.length ordinates.length
      .ok (abscissa.take min_lenght, ordinates.take min_lenght)
    | .unknown => .error (Err.valueError ("Unknown data in argument \"mismatch_data\""))
  else
    .ok (abscissa, ordinates)

/-- Source `_get_lsm_statistics`: the four summary means, each a sum divided by
`data_lenght`; the product and square sums are indexed over
`range(data_lenght)` exactly as in the source. -/
def _get_lsm_statistics (abscissa : List ℚ) (ordinates : List ℚ) :
    Except Err LSMStatistics := do
  let data_lenght := abscissa.length
  let abscissa_mean ← pydiv abscissa.sum (data_lenght : ℚ)
  let ordinates_mean ← pydiv ordinates.sum (data_lenght : ℚ)
  let product_mean ← pydiv ((List.range data_lenght).map
      (fun i => abscissa[i]! * ordinates[i]!)).sum (data_lenght : ℚ)
  let abs_squared_mean ← pydiv ((List.range data_lenght).map
      (fun i => abscissa[i]! ^ 2)).sum (data_lenght : ℚ)
  return { abscissa_mean := abscissa_mean, ordinate_mean := ordinates_mean,
           product_mean := product_mean, abs_squared_mean := abs_squared_mean }

/-- Source `get_lsm_description` (the spec's `estimate_fit`).  The Python
default for `mismatch_strategy` is `MismatchStrategies.FALL`; the parameter is
explicit here.  The `list()` conversion is the identity on a `List`, so the
`TypeError` branch is unreachable in the typed embedding; the real-valuedness
check is kept as in the source.  Each `/` is Python float division and each
`sqrt` is `math.sqrt`, so their failure modes are threaded through the monad. -/
noncomputable def get_lsm_description (abscissa : List ℚ) (ordinates : List ℚ)
    (mismatch_strategy : MismatchStrategies) : Except Err (LSMDescription ℝ) := do
  if !(_is_valid_measurments abscissa) || !(_is_valid_measurments ordinates) then
    throw (Err.valueError ("Some values are not real"))
  let (abscissa, ordinates) ← _process_mismatch abscissa ordinates mismatch_strategy
  let data_lenght := abscissa.length
  let stats ← _get_lsm_statistics abscissa ordinates
  let incline ← pydiv (stats.product_mean - stats.abscissa_mean * stats.ordinate_mean)
      (stats.abs_squared_mean - stats.abscissa_mean ^ 2)
  let shift := stats.ordinate_mean - incline * stats.abscissa_mean
  let inv_dof ← pydiv 1 ((data_lenght : ℚ) - 2)
  let ordinates_error := inv_dof *
      ((List.range data_lenght).map
        (fun i => (ordinates[i]! - incline * abscissa[i]! - shift) ^ 2)).sum
  let ie1 ← pydiv ordinates_error (data_lenght : ℚ)
  let ie2 ← pydiv ie1 (stats.abs_squared_mean - stats.abscissa_mean ^ 2)
  let incline_error ← pysqrt ie2
  let se1 ← pydiv (ordinates_error * stats.abs_squared_mean) (data_lenght : ℚ)
  let se2 ← pydiv se1 (stats.abs_squared_mean - stats.abscissa_mean ^ 2)
  let shift_error ← pysqrt se2
  return { incline := (incline : ℝ), shift := (shift : ℝ),
           incline_error := incline_error, shift_error := shift_error }

/-- Source `get_lsm_lines` (the spec's `compute_lines`).  When no description
is supplied it computes one via `get_lsm_description` with the Python default
strategy `FALL`.  The `isinstance(lsm_description, LSMDescription)` check always
passes in the typed embedding (a supplied value has type `LSMDescription ℝ`),
so the `TypeError` branch is unreachable.  The three lines are mapped over the
original `abscissa`, and the original `ordinates` is stored unchanged. -/
noncomputable def get_lsm_lines (abscissa : List ℚ) (ordinates : List ℚ)
    (lsm_description : Option (LSMDescription ℝ)) : Except Err LSMLines := do
  let d ← match lsm_description with
    | none => get_lsm_description abscissa ordinates MismatchStrategies.FALL
    | some d0 => pure d0
  let line_predicted := abscissa.map (fun x : ℚ => d.incline * (x : ℝ) + d.shift)
  let line_above := abscissa.map
      (fun x : ℚ => (d.incline + d.incline_error) * (x : ℝ) + d.shift + d.shift_error)
  let line_under := abscissa.map
      (fun x : ℚ => (d.incline - d.incline_error) * (x : ℝ) + d.shift - d.shift_error)
  return { abscissa := abscissa, ordinates := ordinates,
           line_predicted := line_predicted, line_above := line_above,
           line_under := line_under }

/-- CPython `str.center(width, fillchar)`: returns the string unchanged when it
is at least `width` long, otherwise pads with `marg // 2 + (marg & width & 1)`
fill characters on the left and the rest on the right. -/
def centerStr (s : String) (width : Nat) (fill : Char) : String :=
  if width ≤ s.length then s
  else
    let marg := width - s.length
    let left := marg / 2 + (marg &&& width &&& 1)
    String.mk (List.replicate left fill) ++ s ++ String.mk (List.replicate (marg - left) fill)

/-- Round a nonnegative rational to the nearest natural number, ties to even —
the rounding CPython's correctly-rounded float formatting performs. -/
def roundHalfEven (x : ℚ) : Nat :=
  let n := ⌊x⌋
  let r := x - (n : ℚ)
  (if 1 / 2 < r then n + 1 else if r < 1 / 2 then n
   else if n % 2 = 0 then n else n + 1).toNat

/-- Exactly `p` decimal digits of `m`, most significant first, zero padded. -/
def natDigitsPadded (p : Nat) (m : Nat) : String :=
  String.mk ((List.range p).map (fun i => Nat.digitChar (m / 10 ^ (p - 1 - i) % 10)))

/-- Python fixed-point formatting `f"{q:.{precision}f}"` of the exact rational
value `q`: sign, integer part, a point, and exactly `precision` digits, the
value rounded half-to-even at the last kept digit. -/
def pyFormatFixed (precision : Nat) (q : ℚ) : String :=
  let sign := if q < 0 then ("-") else ("")
  let m := roundHalfEven (|q| * (10 ^ precision : ℚ))
  sign ++ Nat.repr (m / 10 ^ precision) ++ "." ++ natDigitsPadded precision (m % 10 ^ precision)

/-- Source constant `PRECISION = 3`. -/
def PRECISION : Nat := 3

/-- Source `get_report` (the spec's `render_report`): the banner-framed report,
each numeric field formatted to `PRECISION` decimal places.  The optional
`path_to_save` file write is I/O outside the computational core and is not
modelled; the function returns the report text. -/
def get_report (lsm_description : LSMDescription ℚ) : String :=
  String.intercalate ("\n") [
    centerStr ("LSM computing result") 100 '=',
    "",
    "[INFO]: incline: " ++ pyFormatFixed PRECISION lsm_description.incline ++ ";",
    "[INFO]: shift: " ++ pyFormatFixed PRECISION lsm_description.shift ++ ";",
    "[INFO]: incline error: " ++ pyFormatFixed PRECISION lsm_description.incline_error ++ ";",
    "[INFO]: shift error: " ++ pyFormatFixed PRECISION lsm_description.shift_error ++ ";",
    "",
    centerStr ("") 100 '='
  ]

/-- Spec formula (section 4.4, step 1): the OLS slope computed from the four
summary means; the same expression the source assigns to `incline`. -/
abbrev incline_of (st : LSMStatistics) : ℚ :=
  (st.product_mean - st.abscissa_mean * st.ordinate_mean) /
    (st.abs_squared_mean - st.abscissa_mean ^ 2)

/-- Spec formula (section 4.4, step 2): the OLS intercept. -/
abbrev shift_of (st : LSMStatistics) : ℚ :=
  st.ordinate_mean - incline_of st * st.abscissa_mean

/-- Spec formula (section 4.4, step 3): the degrees-of-freedom-corrected
residual variance `(1/(n-2)) * sum((y_i - incline*x_i - shift)^2)`; the same
expression the source assigns to `ordinates_error`. -/
abbrev sigma_sq (a o : List ℚ) (st : LSMStatistics) : ℚ :=
  (1 : ℚ) / ((a.length : ℚ) - (2 : ℚ)) *
    ((List.range a.length).map
      (fun i => (o[i]! - incline_of st * a[i]! - shift_of st) ^ 2)).sum

/-- Substring containment: `pat` occurs contiguously inside `s`. -/
def containsSubstring (pat s : String) : Prop :=
  ∃ pre post : String, s = pre ++ pat ++ post


/-! Helper lemmas about the monadic plumbing and the summary statistics. -/

theorem exBind_ok {ε α β : Type} (a : α) (f : α → Except ε β) :
    (Except.ok a : Except ε α) >>= f = f a := rfl

theorem exBind_error {ε α β : Type} (e : ε) (f : α → Except ε β) :
    (Except.error e : Except ε α) >>= f = Except.error e := rfl

theorem exPure {ε α : Type} (a : α) : (pure a : Except ε α) = Except.ok a := rfl

theorem exBind_eq_ok {ε α β : Type} {x : Except ε α} {f : α → Except ε β} {b : β}
    (h : x >>= f = Except.ok b) : ∃ a, x = Except.ok a ∧ f a = Except.ok b := by
  cases x with
  | error e => rw [exBind_error] at h; exact absurd h (by simp)
  | ok a => exact ⟨a, rfl, by rwa [exBind_ok] at h⟩

theorem pydiv_eq_ok (a b : ℚ) (h : b ≠ 0) : pydiv a b = .ok (a / b) := by
  simp [pydiv, h]

theorem pydiv_eq_err (a b : ℚ) (h : b = 0) : pydiv a b = .error Err.zeroDivisionError := by
  simp [pydiv, h]

theorem pysqrt_eq_ok (q : ℚ) (h : 0 ≤ q) : pysqrt q = .ok (Real.sqrt (q : ℝ)) := by
  simp [pysqrt, not_lt.mpr h]

theorem pysqrt_ok_inv {q : ℚ} {r : ℝ} (h : pysqrt q = .ok r) : r = Real.sqrt (q : ℝ) := by
  unfold pysqrt at h
  by_cases hq : q < 0
  · rw [if_pos hq] at h; exact absurd h (by simp)
  · rw [if_neg hq] at h; exact (Except.ok.injEq _ _ ▸ h).symm

theorem is_valid_true (l : List ℚ) : _is_valid_measurments l = true := by
  simp [_is_valid_measurments]

theorem process_mismatch_eq (a o : List ℚ) (s : MismatchStrategies)
    (h3 : 3 ≤ a.length) (hne : a.length = o.length) :
    _process_mismatch a o s = .ok (a, o) := by
  unfold _process_mismatch
  rw [if_neg (by omega), if_neg (by omega)]

theorem stats_eq (a o : List ℚ) (h : a.length ≠ 0) :
    _get_lsm_statistics a o = .ok
      { abscissa_mean := a.sum / (a.length : ℚ),
        ordinate_mean := o.sum / (a.length : ℚ),
        product_mean := ((List.range a.length).map (fun i => a[i]! * o[i]!)).sum / (a.length : ℚ),
        abs_squared_mean := ((List.range a.length).map (fun i => a[i]! ^ 2)).sum / (a.length : ℚ) } := by
  have hc : (a.length : ℚ) ≠ 0 := Nat.cast_ne_zero.mpr h
  unfold _get_lsm_statistics
  simp [pydiv_eq_ok _ _ hc, exBind_ok]

theorem sum_sq_nonneg_list (l : List ℚ) : 0 ≤ (l.map (fun x => x ^ 2)).sum := by
  induction l with
  | nil => simp
  | cons x t ih => simp only [List.map_cons, List.sum_cons]; positivity

theorem range_map_getElemBang (f : ℚ → ℚ) (l : List ℚ) :
    (List.range l.length).map (fun i => f l[i]!) = l.map f := by
  induction l with
  | nil => simp
  | cons x t ih =>
    rw [List.length_cons, List.range_succ_eq_map, List.map_cons, List.map_map]
    rw [List.map_cons]
    congr 1
    · simp
    · rw [← ih]
      apply List.map_congr_left
      intro i hi
      simp [Function.comp, List.getElem!_cons_succ]

theorem list_sq_sum_cauchy (l : List ℚ) :
    l.sum ^ 2 ≤ (l.length : ℚ) * (l.map (fun x => x ^ 2)).sum := by
  induction l with
  | nil => simp
  | cons x t ih =>
    have hQ := sum_sq_nonneg_list t
    rcases t with _ | ⟨y, t'⟩
    · simp
    · simp only [List.map_cons, List.sum_cons, List.length_cons] at *
      push_cast at *
      nlinarith [sq_nonneg (((t'.length : ℚ) + 1) * x - (y + t'.sum)), ih, hQ,
        Nat.cast_nonneg (α := ℚ) t'.length, sq_nonneg x]

theorem estimate_fit_formulas (a o : List ℚ) (s : MismatchStrategies) (st : LSMStatistics)
    (h3 : 3 ≤ a.length) (hne : a.length = o.length)
    (hst : _get_lsm_statistics a o = .ok st)
    (hden : st.abs_squared_mean - st.abscissa_mean ^ 2 ≠ 0) :
    get_lsm_description a o s = Except.ok
      { incline := ((incline_of st : ℚ) : ℝ),
        shift := ((shift_of st : ℚ) : ℝ),
        incline_error := Real.sqrt ((sigma_sq a o st / (a.length : ℚ) /
            (st.abs_squared_mean - st.abscissa_mean ^ 2) : ℚ) : ℝ),
        shift_error := Real.sqrt ((sigma_sq a o st * st.abs_squared_mean / (a.length : ℚ) /
            (st.abs_squared_mean - st.abscissa_mean ^ 2) : ℚ) : ℝ) } := by
  have hn0 : a.length ≠ 0 := by omega
  have hnq : ((a.length : ℚ)) ≠ 0 := Nat.cast_ne_zero.mpr hn0
  have h3q : (3 : ℚ) ≤ (a.length : ℚ) := by exact_mod_cast h3
  have hnpos : (0:ℚ) < (a.length : ℚ) := by linarith
  have hd2 : ((a.length : ℚ) - 2) ≠ 0 := by linarith
  have hst' := stats_eq a o hn0
  rw [hst] at hst'
  have hstv : st = _ := (Except.ok.injEq _ _).mp hst'
  have hsqm : st.abs_squared_mean = (a.map (fun x => x ^ 2)).sum / (a.length : ℚ) := by
    rw [hstv]
    simp only []
    rw [range_map_getElemBang (fun x => x ^ 2) a]
  have ham : st.abscissa_mean = a.sum / (a.length : ℚ) := by rw [hstv]
  have hden_nonneg : 0 ≤ st.abs_squared_mean - st.abscissa_mean ^ 2 := by
    rw [hsqm, ham, sub_nonneg, div_pow, div_le_div_iff₀ (by positivity) hnpos]
    nlinarith [list_sq_sum_cauchy a, hnpos]
  have habs_nonneg : 0 ≤ st.abs_squared_mean := by
    rw [hsqm]
    exact div_nonneg (sum_sq_nonneg_list a) (le_of_lt hnpos)
  have hsig_nonneg : 0 ≤ sigma_sq a o st := by
    apply mul_nonneg
    · apply le_of_lt
      apply div_pos one_pos
      linarith
    · apply List.sum_nonneg
      intro x hx
      rcases List.mem_map.mp hx with ⟨i, -, rfl⟩
      positivity
  have hrad1 : 0 ≤ sigma_sq a o st / (a.length : ℚ) /
      (st.abs_squared_mean - st.abscissa_mean ^ 2) :=
    div_nonneg (div_nonneg hsig_nonneg (le_of_lt hnpos)) hden_nonneg
  have hrad2 : 0 ≤ sigma_sq a o st * st.abs_squared_mean / (a.length : ℚ) /
      (st.abs_squared_mean - st.abscissa_mean ^ 2) :=
    div_nonneg (div_nonneg (mul_nonneg hsig_nonneg habs_nonneg) (le_of_lt hnpos)) hden_nonneg
  unfold get_lsm_description
  simp only [is_valid_true]
  rw [process_mismatch_eq a o s h3 hne]
  rw [exBind_ok]
  simp only [Bool.not_true, Bool.or_self, Bool.false_eq_true, if_false]
  rw [hst, exBind_ok]
  rw [pydiv_eq_ok _ _ hden, exBind_ok]
  rw [pydiv_eq_ok 1 _ hd2, exBind_ok]
  rw [pydiv_eq_ok _ _ hnq, exBind_ok]
  rw [pydiv_eq_ok _ _ hden, exBind_ok]
  simp only [sigma_sq, incline_of, shift_of] at hrad1 hrad2
  rw [pysqrt_eq_ok _ hrad1, exBind_ok]
  rw [pydiv_eq_ok _ _ hnq, exBind_ok]
  rw [pydiv_eq_ok _ _ hden, exBind_ok]
  rw [pysqrt_eq_ok _ hrad2, exBind_ok]
  rfl


/-- C2: for every validated pair of equal-length sequences (length at least 3)
whose summary statistics make the OLS denominator `abs_squared_mean -
abscissa_mean^2` zero, `get_lsm_description` fails with the explicit
division-by-zero error (the spec's DegenerateFitError) — it never returns a
description, so no NaN or infinite field can be produced (the embedding is
exact rational arithmetic, where such values do not exist; Python float
division by zero raises rather than returning infinity). -/
theorem estimate_fit_degenerate_error (a o : List ℚ) (s : MismatchStrategies) (st : LSMStatistics)
    (h3 : 3 ≤ a.length) (hne : a.length = o.length)
    (hst : _get_lsm_statistics a o = .ok st)
    (hden : st.abs_squared_mean - st.abscissa_mean ^ 2 = 0) :
    get_lsm_description a o s = .error Err.zeroDivisionError := by
  unfold get_lsm_description
  simp only [is_valid_true]
  rw [process_mismatch_eq a o s h3 hne]
  rw [exBind_ok]
  simp only [Bool.not_true, Bool.or_self, Bool.false_eq_true, if_false]
  rw [hst, exBind_ok]
  rw [pydiv_eq_err _ _ hden]
  rfl

/-- C6: for every pair of sequences in which at least one has fewer than 3
elements, `get_lsm_description` fails with the LengthError `ValueError`, for
any mismatch strategy. -/
theorem estimate_fit_length_error (a o : List ℚ) (s : MismatchStrategies)
    (h : a.length < 3 ∨ o.length < 3) :
    get_lsm_description a o s =
      .error (Err.valueError ("Arguments lenghts must be more than 2")) := by
  unfold get_lsm_description
  simp only [is_valid_true, Bool.not_true, Bool.or_self, Bool.false_eq_true, if_false]
  unfold _process_mismatch
  rw [if_pos h]
  rfl

theorem process_mismatch_cut_aux (a o : List ℚ) (h3a : 3 ≤ a.length) (h3o : 3 ≤ o.length) :
    _process_mismatch a o .CUT =
      .ok (a.take (min a.length o.length), o.take (min a.length o.length)) := by
  unfold _process_mismatch
  rw [if_neg (by omega)]
  by_cases hne : a.length = o.length
  · rw [if_neg (by omega)]
    rw [hne, min_self, List.take_length]
    rw [show a.take o.length = a from by rw [← hne]; exact List.take_length a]
  · rw [if_pos hne]

/-- C5 (amended): a strategy value outside the enumeration produces the
PolicyError `ValueError` only when the two lengths differ; the counterexample
theorem shows the claim's "including equal lengths" part fails on the code. -/
theorem estimate_fit_policy_error_on_mismatch (a o : List ℚ)
    (h3a : 3 ≤ a.length) (h3o : 3 ≤ o.length) (hne : a.length ≠ o.length) :
    get_lsm_description a o .unknown =
      .error (Err.valueError ("Unknown data in argument \"mismatch_data\"")) := by
  unfold get_lsm_description
  simp only [is_valid_true, Bool.not_true, Bool.or_self, Bool.false_eq_true, if_false]
  unfold _process_mismatch
  rw [if_neg (by omega), if_pos hne]
  rfl

theorem get_lsm_lines_some_eq (a o : List ℚ) (d : LSMDescription ℝ) :
    get_lsm_lines a o (some d) = .ok
      { abscissa := a, ordinates := o,
        line_predicted := a.map (fun x : ℚ => d.incline * (x : ℝ) + d.shift),
        line_above := a.map
          (fun x : ℚ => (d.incline + d.incline_error) * (x : ℝ) + d.shift + d.shift_error),
        line_under := a.map
          (fun x : ℚ => (d.incline - d.incline_error) * (x : ℝ) + d.shift - d.shift_error) } := rfl

/-- C4: whenever `get_lsm_description` (the default-strategy estimate used by
`get_lsm_lines` when no description is supplied) succeeds, calling
`get_lsm_lines` without a description returns exactly the same `LSMLines` as
passing the resulting description explicitly. -/
theorem compute_lines_default_equals_explicit (a o : List ℚ) (d : LSMDescription ℝ)
    (h : get_lsm_description a o .FALL = .ok d) :
    get_lsm_lines a o none = get_lsm_lines a o (some d) := by
  unfold get_lsm_lines
  rw [h]
  rfl

/-- C8: whenever `get_lsm_description` succeeds, the returned description has
nonnegative `incline_error` and `shift_error` (both are real square roots). -/
theorem estimate_fit_errors_nonneg (a o : List ℚ) (s : MismatchStrategies) (d : LSMDescription ℝ)
    (h : get_lsm_description a o s = .ok d) :
    0 ≤ d.incline_error ∧ 0 ≤ d.shift_error := by
  unfold get_lsm_description at h
  simp only [is_valid_true, Bool.not_true, Bool.or_self, Bool.false_eq_true, if_false,
    exPure, exBind_ok] at h
  obtain ⟨⟨a2, o2⟩, -, h⟩ := exBind_eq_ok h
  obtain ⟨st, -, h⟩ := exBind_eq_ok h
  obtain ⟨inc, -, h⟩ := exBind_eq_ok h
  obtain ⟨idof, -, h⟩ := exBind_eq_ok h
  obtain ⟨ie1, -, h⟩ := exBind_eq_ok h
  obtain ⟨ie2, -, h⟩ := exBind_eq_ok h
  obtain ⟨ie, hie, h⟩ := exBind_eq_ok h
  obtain ⟨se1, -, h⟩ := exBind_eq_ok h
  obtain ⟨se2, -, h⟩ := exBind_eq_ok h
  obtain ⟨se, hse, h⟩ := exBind_eq_ok h
  have hd := (Except.ok.injEq _ _).mp h
  rw [← hd]
  constructor
  · rw [pysqrt_ok_inv hie]
    exact Real.sqrt_nonneg _
  · rw [pysqrt_ok_inv hse]
    exact Real.sqrt_nonneg _

theorem digitChar_isDigit : ∀ k : ℕ, k < 10 → (Nat.digitChar k).isDigit = true := by decide

theorem natDigitsPadded_length (p : Nat) (m : Nat) : (natDigitsPadded p m).length = p := by
  simp [natDigitsPadded, String.length]

theorem pyFormatFixed_decomp (q : ℚ) :
    ∃ pre : String, ∃ digits : List Char,
      pyFormatFixed PRECISION q = pre ++ "." ++ String.mk digits ∧
      digits.length = 3 ∧ ∀ c ∈ digits, c.isDigit = true := by
  refine ⟨(if q < 0 then ("-") else ("")) ++
    Nat.repr (roundHalfEven (|q| * (10 ^ PRECISION : ℚ)) / 10 ^ PRECISION),
    (List.range PRECISION).map
      (fun i => Nat.digitChar (roundHalfEven (|q| * (10 ^ PRECISION : ℚ)) % 10 ^ PRECISION /
        10 ^ (PRECISION - 1 - i) % 10)), ?_, by simp [PRECISION], ?_⟩
  · rfl
  · intro c hc
    rcases List.mem_map.mp hc with ⟨i, -, rfl⟩
    exact digitChar_isDigit _ (Nat.mod_lt _ (by norm_num))

theorem get_report_decomp (d : LSMDescription ℚ) :
    get_report d =
      centerStr ("LSM computing result") 100 '=' ++ "\n" ++ "\n" ++
      ("[INFO]: incline: " ++ pyFormatFixed PRECISION d.incline ++ ";") ++ "\n" ++
      ("[INFO]: shift: " ++ pyFormatFixed PRECISION d.shift ++ ";") ++ "\n" ++
      ("[INFO]: incline error: " ++ pyFormatFixed PRECISION d.incline_error ++ ";") ++ "\n" ++
      ("[INFO]: shift error: " ++ pyFormatFixed PRECISION d.shift_error ++ ";") ++ "\n" ++ "\n" ++
      centerStr ("") 100 '=' := by
  simp [get_report, String.intercalate, String.intercalate.go, String.append_assoc]

theorem stats_236 : _get_lsm_statistics [1, 2, 3] [2, 4, 6] =
    .ok (⟨2, 4, 28/3, 14/3⟩ : LSMStatistics) := by
  have g1 : ([1, 2, 3] : List ℚ)[0]! = 1 := rfl
  have g2 : ([1, 2, 3] : List ℚ)[1]! = 2 := rfl
  have g3 : ([1, 2, 3] : List ℚ)[2]! = 3 := rfl
  have g4 : ([2, 4, 6] : List ℚ)[0]! = 2 := rfl
  have g5 : ([2, 4, 6] : List ℚ)[1]! = 4 := rfl
  have g6 : ([2, 4, 6] : List ℚ)[2]! = 6 := rfl
  have hr3 : List.range (List.length ([1, 2, 3] : List ℚ)) = [0, 1, 2] := rfl
  rw [stats_eq _ _ (by decide), hr3]
  norm_num [g1, g2, g3, g4, g5, g6]

theorem eval_236 (s : MismatchStrategies) :
    get_lsm_description [1, 2, 3] [2, 4, 6] s =
      .ok { incline := 2, shift := 0, incline_error := 0, shift_error := 0 } := by
  have h := estimate_fit_formulas [1, 2, 3] [2, 4, 6] s
      (⟨2, 4, 28/3, 14/3⟩ : LSMStatistics) (by decide) (by decide) stats_236 (by norm_num)
  rw [h]
  have e1 : incline_of (⟨2, 4, 28/3, 14/3⟩ : LSMStatistics) = 2 := by norm_num [incline_of]
  have e2 : shift_of (⟨2, 4, 28/3, 14/3⟩ : LSMStatistics) = 0 := by
    norm_num [shift_of, e1]
  have g1 : ([1, 2, 3] : List ℚ)[0]! = 1 := rfl
  have g2 : ([1, 2, 3] : List ℚ)[1]! = 2 := rfl
  have g3 : ([1, 2, 3] : List ℚ)[2]! = 3 := rfl
  have g4 : ([2, 4, 6] : List ℚ)[0]! = 2 := rfl
  have g5 : ([2, 4, 6] : List ℚ)[1]! = 4 := rfl
  have g6 : ([2, 4, 6] : List ℚ)[2]! = 6 := rfl
  have hr3 : List.range (List.length ([1, 2, 3] : List ℚ)) = [0, 1, 2] := rfl
  have e3 : sigma_sq [1, 2, 3] [2, 4, 6] (⟨2, 4, 28/3, 14/3⟩ : LSMStatistics) = 0 := by
    rw [sigma_sq, hr3]
    norm_num [e1, e2, g1, g2, g3, g4, g5, g6]
  rw [e1, e2, e3]
  norm_num

theorem getElemBang_map_real (f : ℚ → ℝ) (l : List ℚ) (i : ℕ) (hi : i < l.length) :
    (l.map f)[i]! = f l[i]! := by
  rw [getElem!_pos (l.map f) i (by simpa using hi), getElem!_pos l i hi]
  exact List.getElem_map _

theorem report_contains_incline (d : LSMDescription ℚ) :
    containsSubstring ("incline: " ++ pyFormatFixed PRECISION d.incline ++ ";") (get_report d) := by
  refine ⟨centerStr ("LSM computing result") 100 '=' ++ "\n" ++ "\n" ++ "[INFO]: ",
    "\n" ++ ("[INFO]: shift: " ++ pyFormatFixed PRECISION d.shift ++ ";") ++ "\n" ++
    ("[INFO]: incline error: " ++ pyFormatFixed PRECISION d.incline_error ++ ";") ++ "\n" ++
    ("[INFO]: shift error: " ++ pyFormatFixed PRECISION d.shift_error ++ ";") ++ "\n" ++ "\n" ++
    centerStr ("") 100 '=', ?_⟩
  rw [get_report_decomp]
  apply String.ext
  simp [String.data_append, List.append_assoc]

theorem report_contains_shift (d : LSMDescription ℚ) :
    containsSubstring ("shift: " ++ pyFormatFixed PRECISION d.shift ++ ";") (get_report d) := by
  refine ⟨centerStr ("LSM computing result") 100 '=' ++ "\n" ++ "\n" ++
    ("[INFO]: incline: " ++ pyFormatFixed PRECISION d.incline ++ ";") ++ "\n" ++ "[INFO]: ",
    "\n" ++ ("[INFO]: incline error: " ++ pyFormatFixed PRECISION d.incline_error ++ ";") ++ "\n" ++
    ("[INFO]: shift error: " ++ pyFormatFixed PRECISION d.shift_error ++ ";") ++ "\n" ++ "\n" ++
    centerStr ("") 100 '=', ?_⟩
  rw [get_report_decomp]
  apply String.ext
  simp [String.data_append, List.append_assoc]

theorem report_contains_incline_error (d : LSMDescription ℚ) :
    containsSubstring ("incline error: " ++ pyFormatFixed PRECISION d.incline_error ++ ";")
      (get_report d) := by
  refine ⟨centerStr ("LSM computing result") 100 '=' ++ "\n" ++ "\n" ++
    ("[INFO]: incline: " ++ pyFormatFixed PRECISION d.incline ++ ";") ++ "\n" ++
    ("[INFO]: shift: " ++ pyFormatFixed PRECISION d.shift ++ ";") ++ "\n" ++ "[INFO]: ",
    "\n" ++ ("[INFO]: shift error: " ++ pyFormatFixed PRECISION d.shift_error ++ ";") ++ "\n" ++
    "\n" ++ centerStr ("") 100 '=', ?_⟩
  rw [get_report_decomp]
  apply String.ext
  simp [String.data_append, List.append_assoc]

theorem report_contains_shift_error (d : LSMDescription ℚ) :
    containsSubstring ("shift error: " ++ pyFormatFixed PRECISION d.shift_error ++ ";")
      (get_report d) := by
  refine ⟨centerStr ("LSM computing result") 100 '=' ++ "\n" ++ "\n" ++
    ("[INFO]: incline: " ++ pyFormatFixed PRECISION d.incline ++ ";") ++ "\n" ++
    ("[INFO]: shift: " ++ pyFormatFixed PRECISION d.shift ++ ";") ++ "\n" ++
    ("[INFO]: incline error: " ++ pyFormatFixed PRECISION d.incline_error ++ ";") ++ "\n" ++
    "[INFO]: ",
    "\n" ++ "\n" ++ centerStr ("") 100 '=', ?_⟩
  rw [get_report_decomp]
  apply String.ext
  simp [String.data_append, List.append_assoc]

theorem roundHalfEven_123456 :
    roundHalfEven (|(1.23456 : ℚ)| * (10 ^ PRECISION : ℚ)) = 1235 := by
  have h1 : (|(1.23456 : ℚ)| * (10 ^ PRECISION : ℚ)) = 123456 / 100 := by
    rw [abs_of_pos (by norm_num)]
    norm_num [PRECISION]
  rw [roundHalfEven, h1]
  have h2 : ⌊(123456 / 100 : ℚ)⌋ = 1234 := by norm_num
  rw [h2]
  rw [if_pos (by norm_num)]
  decide

theorem fmt_123456 : pyFormatFixed PRECISION (1.23456 : ℚ) = "1.235" := by
  rw [pyFormatFixed, roundHalfEven_123456]
  rw [if_neg (by norm_num)]
  rfl

theorem roundHalfEven_zero : roundHalfEven (|(0 : ℚ)| * (10 ^ PRECISION : ℚ)) = 0 := by
  have h1 : (|(0 : ℚ)| * (10 ^ PRECISION : ℚ)) = 0 := by norm_num
  rw [roundHalfEven, h1]
  norm_num

theorem fmt_zero : pyFormatFixed PRECISION (0 : ℚ) = "0.000" := by
  rw [pyFormatFixed, roundHalfEven_zero]
  rw [if_neg (by norm_num)]
  rfl

theorem stats_111 : _get_lsm_statistics [1, 1, 1] [1, 2, 3] =
    .ok (⟨1, 2, 2, 1⟩ : LSMStatistics) := by
  have g1 : ([1, 1, 1] : List ℚ)[0]! = 1 := rfl
  have g2 : ([1, 1, 1] : List ℚ)[1]! = 1 := rfl
  have g3 : ([1, 1, 1] : List ℚ)[2]! = 1 := rfl
  have g4 : ([1, 2, 3] : List ℚ)[0]! = 1 := rfl
  have g5 : ([1, 2, 3] : List ℚ)[1]! = 2 := rfl
  have g6 : ([1, 2, 3] : List ℚ)[2]! = 3 := rfl
  have hr3 : List.range (List.length ([1, 1, 1] : List ℚ)) = [0, 1, 2] := rfl
  rw [stats_eq _ _ (by decide), hr3]
  norm_num [g1, g2, g3, g4, g5, g6]

theorem report_concrete_contains :
    containsSubstring ("incline: 1.235;")
      (get_report { incline := 1.23456, shift := 0, incline_error := 0, shift_error := 0 }) := by
  have p1 : ({ incline := 1.23456, shift := 0, incline_error := 0, shift_error := 0 } :
      LSMDescription ℚ).incline = (1.23456 : ℚ) := rfl
  have p2 : ({ incline := 1.23456, shift := 0, incline_error := 0, shift_error := 0 } :
      LSMDescription ℚ).shift = (0 : ℚ) := rfl
  have p3 : ({ incline := 1.23456, shift := 0, incline_error := 0, shift_error := 0 } :
      LSMDescription ℚ).incline_error = (0 : ℚ) := rfl
  have p4 : ({ incline := 1.23456, shift := 0, incline_error := 0, shift_error := 0 } :
      LSMDescription ℚ).shift_error = (0 : ℚ) := rfl
  refine ⟨centerStr ("LSM computing result") 100 '=' ++ "\n" ++ "\n" ++ "[INFO]: ",
    "\n" ++ ("[INFO]: shift: 0.000;") ++ "\n" ++ ("[INFO]: incline error: 0.000;") ++ "\n" ++
    ("[INFO]: shift error: 0.000;") ++ "\n" ++ "\n" ++ centerStr ("") 100 '=', ?_⟩
  rw [get_report_decomp]
  simp only [p1, p2, p3, p4, fmt_123456, fmt_zero]
  apply String.ext
  simp [String.data_append, List.append_assoc]

/-- C1: for every valid resolved input — equal-length rational sequences of
length at least 3 whose summary statistics have a nonzero OLS denominator —
`get_lsm_description` succeeds and returns exactly the description given by the
closed-form OLS formulas: `incline = (product_mean - abscissa_mean *
ordinate_mean) / (abs_squared_mean - abscissa_mean^2)`, `shift = ordinate_mean
- incline * abscissa_mean`, and the two errors are the square roots of the
residual-variance expressions `sigma^2 / n / denominator` and `sigma^2 *
abs_squared_mean / n / denominator` with `sigma^2 = (1/(n-2)) *
sum((y_i - incline*x_i - shift)^2)`. -/
theorem estimate_fit_ols_formulas (a o : List ℚ) (s : MismatchStrategies) (st : LSMStatistics)
    (h3 : 3 ≤ a.length) (hne : a.length = o.length)
    (hst : _get_lsm_statistics a o = .ok st)
    (hden : st.abs_squared_mean - st.abscissa_mean ^ 2 ≠ 0) :
    get_lsm_description a o s = Except.ok
      { incline := ((incline_of st : ℚ) : ℝ),
        shift := ((shift_of st : ℚ) : ℝ),
        incline_error := Real.sqrt ((sigma_sq a o st / (a.length : ℚ) /
            (st.abs_squared_mean - st.abscissa_mean ^ 2) : ℚ) : ℝ),
        shift_error := Real.sqrt ((sigma_sq a o st * st.abs_squared_mean / (a.length : ℚ) /
            (st.abs_squared_mean - st.abscissa_mean ^ 2) : ℚ) : ℝ) } :=
  estimate_fit_formulas a o s st h3 hne hst hden

/-- Witness for C1 at the spec's concrete scenario abscissa = [1, 2, 3],
ordinates = [2, 4, 6]: incline 2, shift 0, both errors 0. -/
theorem estimate_fit_ols_formulas_witness :
    get_lsm_description [1, 2, 3] [2, 4, 6] MismatchStrategies.FALL =
      .ok { incline := 2, shift := 0, incline_error := 0, shift_error := 0 } := by
  have h := estimate_fit_ols_formulas [1, 2, 3] [2, 4, 6] MismatchStrategies.FALL
      (⟨2, 4, 28/3, 14/3⟩ : LSMStatistics) (by decide) (by decide) stats_236 (by norm_num)
  rw [h]
  have e1 : incline_of (⟨2, 4, 28/3, 14/3⟩ : LSMStatistics) = 2 := by norm_num [incline_of]
  have e2 : shift_of (⟨2, 4, 28/3, 14/3⟩ : LSMStatistics) = 0 := by
    norm_num [shift_of, e1]
  have g1 : ([1, 2, 3] : List ℚ)[0]! = 1 := rfl
  have g2 : ([1, 2, 3] : List ℚ)[1]! = 2 := rfl
  have g3 : ([1, 2, 3] : List ℚ)[2]! = 3 := rfl
  have g4 : ([2, 4, 6] : List ℚ)[0]! = 2 := rfl
  have g5 : ([2, 4, 6] : List ℚ)[1]! = 4 := rfl
  have g6 : ([2, 4, 6] : List ℚ)[2]! = 6 := rfl
  have hr3 : List.range (List.length ([1, 2, 3] : List ℚ)) = [0, 1, 2] := rfl
  have e3 : sigma_sq [1, 2, 3] [2, 4, 6] (⟨2, 4, 28/3, 14/3⟩ : LSMStatistics) = 0 := by
    rw [sigma_sq, hr3]
    norm_num [e1, e2, g1, g2, g3, g4, g5, g6]
  rw [e1, e2, e3]
  norm_num

/-- Witness for C2 at the spec's concrete degenerate scenario abscissa =
[1, 1, 1] (zero variance), ordinates = [1, 2, 3]. -/
theorem estimate_fit_degenerate_error_witness :
    get_lsm_description [1, 1, 1] [1, 2, 3] MismatchStrategies.FALL =
      .error Err.zeroDivisionError :=
  estimate_fit_degenerate_error [1, 1, 1] [1, 2, 3] MismatchStrategies.FALL
    (⟨1, 2, 2, 1⟩ : LSMStatistics) (by decide) (by decide) stats_111 (by norm_num)

/-- C3: for sequences of length at least 3, the CUT (spec: TRUNCATE) strategy
resolves a mismatch to the leading prefixes of length `min`, the two results
have that common length, and already-matching inputs are returned unchanged. -/
theorem truncate_prefix_min_length (a o : List ℚ) (h3a : 3 ≤ a.length) (h3o : 3 ≤ o.length) :
    _process_mismatch a o MismatchStrategies.CUT =
      .ok (a.take (min a.length o.length), o.take (min a.length o.length)) ∧
    (a.take (min a.length o.length)).length = min a.length o.length ∧
    (o.take (min a.length o.length)).length = min a.length o.length ∧
    (a.length = o.length → _process_mismatch a o MismatchStrategies.CUT = .ok (a, o)) := by
  refine ⟨process_mismatch_cut_aux a o h3a h3o, ?_, ?_,
    fun hne => process_mismatch_eq a o _ h3a hne⟩
  · rw [List.length_take]
    omega
  · rw [List.length_take]
    omega

/-- Witness for C3 at the spec's concrete scenario abscissa = [1, 2, 3, 4, 5],
ordinates = [1, 2, 3]: both resolved to [1, 2, 3]. -/
theorem truncate_prefix_min_length_witness :
    _process_mismatch [1, 2, 3, 4, 5] [1, 2, 3] MismatchStrategies.CUT =
      .ok ([1, 2, 3], [1, 2, 3]) := by
  have h := (truncate_prefix_min_length [1, 2, 3, 4, 5] [1, 2, 3] (by decide) (by decide)).1
  rw [h]
  rfl

/-- Witness for C4 at abscissa = [1, 2, 3], ordinates = [2, 4, 6], where the
internally computed description is incline 2, shift 0, zero errors. -/
theorem compute_lines_default_equals_explicit_witness :
    get_lsm_lines [1, 2, 3] [2, 4, 6] none =
      get_lsm_lines [1, 2, 3] [2, 4, 6]
        (some { incline := 2, shift := 0, incline_error := 0, shift_error := 0 }) :=
  compute_lines_default_equals_explicit [1, 2, 3] [2, 4, 6] _
    (eval_236 MismatchStrategies.FALL)

/-- Witness for C5 (amended) at abscissa = [1, 2, 3, 4], ordinates = [1, 2, 3]
with a value outside the strategy enumeration. -/
theorem estimate_fit_policy_error_on_mismatch_witness :
    get_lsm_description [1, 2, 3, 4] [1, 2, 3] MismatchStrategies.unknown =
      .error (Err.valueError ("Unknown data in argument \"mismatch_data\"")) :=
  estimate_fit_policy_error_on_mismatch [1, 2, 3, 4] [1, 2, 3]
    (by decide) (by decide) (by decide)

/-- Counterexample to C5 as stated: with equal-length inputs [1, 2, 3] and
[2, 4, 6] and a strategy value outside the enumeration,
`get_lsm_description` succeeds (the strategy is never inspected), so it does
not fail with the PolicyError `ValueError`. -/
theorem unknown_strategy_equal_lengths_succeeds :
    get_lsm_description [1, 2, 3] [2, 4, 6] MismatchStrategies.unknown =
      .ok { incline := 2, shift := 0, incline_error := 0, shift_error := 0 } ∧
    get_lsm_description [1, 2, 3] [2, 4, 6] MismatchStrategies.unknown ≠
      .error (Err.valueError ("Unknown data in argument \"mismatch_data\"")) :=
  ⟨eval_236 MismatchStrategies.unknown, by rw [eval_236 MismatchStrategies.unknown]; simp⟩

/-- Witness for C6 at the spec's concrete scenario abscissa = [1, 2],
ordinates = [1, 2]. -/
theorem estimate_fit_length_error_witness :
    get_lsm_description [1, 2] [1, 2] MismatchStrategies.FALL =
      .error (Err.valueError ("Arguments lenghts must be more than 2")) :=
  estimate_fit_length_error [1, 2] [1, 2] MismatchStrategies.FALL (by decide)

/-- C7: with an explicitly supplied description, `get_lsm_lines` returns lines
whose i-th entries are `incline*x_i + shift`,
`(incline+incline_error)*x_i + shift + shift_error` and
`(incline-incline_error)*x_i + shift - shift_error`, each line having the same
length (and hence order) as the input abscissa. -/
theorem compute_lines_elementwise (a o : List ℚ) (d : LSMDescription ℝ) (i : ℕ)
    (hi : i < a.length) :
    ∃ L : LSMLines, get_lsm_lines a o (some d) = .ok L ∧
      L.line_predicted.length = a.length ∧
      L.line_above.length = a.length ∧
      L.line_under.length = a.length ∧
      L.abscissa = a ∧ L.ordinates = o ∧
      L.line_predicted[i]! = d.incline * (a[i]! : ℝ) + d.shift ∧
      L.line_above[i]! = (d.incline + d.incline_error) * (a[i]! : ℝ) + d.shift + d.shift_error ∧
      L.line_under[i]! = (d.incline - d.incline_error) * (a[i]! : ℝ) + d.shift - d.shift_error := by
  refine ⟨_, get_lsm_lines_some_eq a o d, by simp, by simp, by simp, rfl, rfl, ?_, ?_, ?_⟩
  · exact getElemBang_map_real _ a i hi
  · exact getElemBang_map_real _ a i hi
  · exact getElemBang_map_real _ a i hi

/-- Witness for C7 at abscissa = [1, 2], ordinates = [5] (even mismatched
lengths are accepted when a description is supplied), description
(1, 2, 3, 4), index 0. -/
theorem compute_lines_elementwise_witness :
    ∃ L : LSMLines,
      get_lsm_lines [1, 2] [5]
        (some { incline := 1, shift := 2, incline_error := 3, shift_error := 4 }) = .ok L ∧
      L.line_predicted.length = ([1, 2] : List ℚ).length ∧
      L.line_above.length = ([1, 2] : List ℚ).length ∧
      L.line_under.length = ([1, 2] : List ℚ).length ∧
      L.abscissa = [1, 2] ∧ L.ordinates = [5] ∧
      L.line_predicted[0]! = ({ incline := 1, shift := 2, incline_error := 3, shift_error := 4 } :
          LSMDescription ℝ).incline * ((([1, 2] : List ℚ)[0]!) : ℝ) +
        ({ incline := 1, shift := 2, incline_error := 3, shift_error := 4 } :
          LSMDescription ℝ).shift ∧
      L.line_above[0]! = (({ incline := 1, shift := 2, incline_error := 3, shift_error := 4 } :
          LSMDescription ℝ).incline +
        ({ incline := 1, shift := 2, incline_error := 3, shift_error := 4 } :
          LSMDescription ℝ).incline_error) * ((([1, 2] : List ℚ)[0]!) : ℝ) +
        ({ incline := 1, shift := 2, incline_error := 3, shift_error := 4 } :
          LSMDescription ℝ).shift +
        ({ incline := 1, shift := 2, incline_error := 3, shift_error := 4 } :
          LSMDescription ℝ).shift_error ∧
      L.line_under[0]! = (({ incline := 1, shift := 2, incline_error := 3, shift_error := 4 } :
          LSMDescription ℝ).incline -
        ({ incline := 1, shift := 2, incline_error := 3, shift_error := 4 } :
          LSMDescription ℝ).incline_error) * ((([1, 2] : List ℚ)[0]!) : ℝ) +
        ({ incline := 1, shift := 2, incline_error := 3, shift_error := 4 } :
          LSMDescription ℝ).shift -
        ({ incline := 1, shift := 2, incline_error := 3, shift_error := 4 } :
          LSMDescription ℝ).shift_error :=
  compute_lines_elementwise [1, 2] [5]
    { incline := 1, shift := 2, incline_error := 3, shift_error := 4 } 0 (by decide)

/-- C8 witness at abscissa = [1, 2, 3], ordinates = [2, 4, 6]: the computed
description (2, 0, 0, 0) has nonnegative errors. -/
theorem estimate_fit_errors_nonneg_witness :
    (0 : ℝ) ≤ ({ incline := 2, shift := 0, incline_error := 0, shift_error := 0 } :
        LSMDescription ℝ).incline_error ∧
    (0 : ℝ) ≤ ({ incline := 2, shift := 0, incline_error := 0, shift_error := 0 } :
        LSMDescription ℝ).shift_error :=
  estimate_fit_errors_nonneg [1, 2, 3] [2, 4, 6] MismatchStrategies.FALL _
    (eval_236 MismatchStrategies.FALL)

/-- C9: `get_report` is a pure function of the description, so equal inputs
give byte-identical text; each of the four fields appears in the text with its
`PRECISION`-decimal (3-decimal) formatting; every formatted number has exactly
3 digits after the decimal point; and the description with incline 1.23456
yields a report containing "incline: 1.235;". -/
theorem render_report_deterministic_fixed_precision (d : LSMDescription ℚ) :
    get_report d = get_report d ∧
    containsSubstring ("incline: " ++ pyFormatFixed PRECISION d.incline ++ ";") (get_report d) ∧
    containsSubstring ("shift: " ++ pyFormatFixed PRECISION d.shift ++ ";") (get_report d) ∧
    containsSubstring ("incline error: " ++ pyFormatFixed PRECISION d.incline_error ++ ";")
      (get_report d) ∧
    containsSubstring ("shift error: " ++ pyFormatFixed PRECISION d.shift_error ++ ";")
      (get_report d) ∧
    (∀ q : ℚ, ∃ pre : String, ∃ digits : List Char,
      pyFormatFixed PRECISION q = pre ++ "." ++ String.mk digits ∧
      digits.length = 3 ∧ ∀ c ∈ digits, c.isDigit = true) ∧
    containsSubstring ("incline: 1.235;")
      (get_report { incline := 1.23456, shift := 0, incline_error := 0, shift_error := 0 }) :=
  ⟨rfl, report_contains_incline d, report_contains_shift d, report_contains_incline_error d,
   report_contains_shift_error d, pyFormatFixed_decomp, report_concrete_contains⟩

/-- Witness for C9 at the description with incline 1.23456: its report contains
"incline: 1.235;". -/
theorem render_report_deterministic_fixed_precision_witness :
    containsSubstring ("incline: 1.235;")
      (get_report { incline := 1.23456, shift := 0, incline_error := 0, shift_error := 0 }) :=
  (render_report_deterministic_fixed_precision
    { incline := 1.23456, shift := 0, incline_error := 0, shift_error := 0 }).2.2.2.2.2.2

/-- C10: with an explicitly supplied description, `get_lsm_lines` performs no
validation or mismatch resolution: for any two lists (equal length or not,
shorter than 3 or not) it succeeds, stores abscissa and ordinates unchanged,
and generates three lines of length `len(abscissa)` — so the five sequences
need not share a common length. -/
theorem compute_lines_unvalidated (a o : List ℚ) (d : LSMDescription ℝ) :
    get_lsm_lines a o (some d) = .ok
      { abscissa := a, ordinates := o,
        line_predicted := a.map (fun x : ℚ => d.incline * (x : ℝ) + d.shift),
        line_above := a.map
          (fun x : ℚ => (d.incline + d.incline_error) * (x : ℝ) + d.shift + d.shift_error),
        line_under := a.map
          (fun x : ℚ => (d.incline - d.incline_error) * (x : ℝ) + d.shift - d.shift_error) } ∧
    (a.map (fun x : ℚ => d.incline * (x : ℝ) + d.shift)).length = a.length ∧
    (a.map (fun x : ℚ =>
      (d.incline + d.incline_error) * (x : ℝ) + d.shift + d.shift_error)).length = a.length ∧
    (a.map (fun x : ℚ =>
      (d.incline - d.incline_error) * (x : ℝ) + d.shift - d.shift_error)).length = a.length :=
  ⟨get_lsm_lines_some_eq a o d, by simp, by simp, by simp⟩
